import Mathlib

/-
Verification development for the IDX stock screener (flask_app.py).

The embedding models the numeric/data core of the program:
- a DataFrame of daily bars is a `List Bar` (rows in ascending date order);
- pandas column arithmetic (`shift`, `rolling(...).mean()`, `diff`,
  `where`) is embedded as functions `List ℚ → List (Option ℚ)`, where
  `none` models a NaN cell;
- machine floats are modelled as exact rationals; IEEE special cases
  (division of a positive number by zero giving +inf, 0/0 giving NaN)
  are spelled out explicitly where the source relies on them (RSI);
- the per-ticker `try/except` of `screen_and_extract` is modelled by
  `Option`: the only statement in the guarded block that can raise on a
  well-typed frame is `stock_df.iloc[-1]` on an empty frame, so the
  exception path is exactly the empty-series case;
- the Flask error handling of `/analyze` (raise ValueError, catch,
  re-render with an error message) is modelled by `Except String`.
-/

namespace StockScreener

/-- One daily OHLCV row of the yfinance DataFrame.  Field names follow the
source's column labels 'Open', 'High', 'Low', 'Close', 'Volume'. -/
structure Bar where
  Open : ℚ
  High : ℚ
  Low : ℚ
  Close : ℚ
  Volume : ℚ
deriving DecidableEq, Repr

/-- IHSG_TICKER = "^JKSE" (module-level constant of flask_app.py). -/
def IHSG_TICKER : String := "^JKSE"

/-- The criteria_params dict: open_ratio, min_price, min_volume_shares.
In the source min_price and min_volume_shares are parsed as ints and
open_ratio as a float; all are compared numerically, so all are ℚ here. -/
structure Criteria where
  open_ratio : ℚ
  min_price : ℚ
  min_volume_shares : ℚ
deriving DecidableEq, Repr

/-- The indicator_params dict: window lengths for calculate_indicators. -/
structure IndicatorParams where
  sma_short : ℕ
  sma_long : ℕ
  rsi_period : ℕ
  vol_period : ℕ
  hist_days : ℕ
deriving DecidableEq, Repr

/-- Cell access in an indicator column: `colAt xs i` is the value at row
index i, `none` for a NaN cell or an out-of-range index. -/
def colAt (xs : List (Option ℚ)) (i : ℕ) : Option ℚ :=
  (xs[i]?).join

/-- Embedding of `series.rolling(window=w).mean()` on an all-numeric
column: with the pandas default min_periods = window, the cell at index i
is the arithmetic mean of the w trailing values (indices i+1-w .. i) once
w values exist (w ≤ i+1), NaN before that. -/
def rollingMean (w : ℕ) (xs : List ℚ) : List (Option ℚ) :=
  (List.range xs.length).map fun i =>
    if w ≤ i + 1 then some ((((xs.take (i + 1)).drop (i + 1 - w)).sum) / (w : ℚ)) else none

/-- Embedding of line 51,
`df['Hist_Return_30D'] = (df['Close'] / df['Close'].shift(hist_days) - 1) * 100`:
`shift(n)` yields NaN at the first n indices, and NaN propagates through
the arithmetic, so the cell at index i is the closed form once n ≤ i.
(The Bar invariant of the data model — positive closes — keeps the ℚ
division aligned with float division here.) -/
def Hist_Return_col (closes : List ℚ) (n : ℕ) : List (Option ℚ) :=
  (List.range closes.length).map fun i =>
    if n ≤ i then some ((closes.getD i 0 / closes.getD (i - n) 0 - 1) * 100) else none

/-- Embedding of line 57, `delta = df['Close'].diff()`: NaN at index 0,
close-to-close difference elsewhere. -/
def diff_col (xs : List ℚ) : List (Option ℚ) :=
  (List.range xs.length).map fun i =>
    if 1 ≤ i then some (xs.getD i 0 - xs.getD (i - 1) 0) else none

/-- Embedding of `delta.where(delta > 0, 0)` (line 58).  pandas `where`
keeps the value where the condition holds and substitutes 0 elsewhere;
the NaN cell at index 0 compares as not-greater-than-0, so it is
replaced by 0 as well — the result is an all-numeric column. -/
def wherePos : Option ℚ → ℚ
  | some v => if 0 < v then v else 0
  | none => 0

/-- Embedding of `-delta.where(delta < 0, 0)` (line 59): magnitude of the
negative deltas, 0 elsewhere (including the index-0 NaN, and -0 = 0). -/
def whereNegMag : Option ℚ → ℚ
  | some v => if v < 0 then -v else 0
  | none => 0

/-- The rolling average gain column `gain` of line 58. -/
def gain_col (closes : List ℚ) (w : ℕ) : List (Option ℚ) :=
  rollingMean w ((diff_col closes).map wherePos)

/-- The rolling average loss column `loss` of line 59. -/
def loss_col (closes : List ℚ) (w : ℕ) : List (Option ℚ) :=
  rollingMean w ((diff_col closes).map whereNegMag)

/-- Cellwise combination of lines 60-61, `rs = gain / loss` and
`RSI = 100 - (100 / (1 + rs))`, under IEEE float semantics.  gain and
loss are nonnegative wherever defined.  For loss > 0 the formula is
ordinary arithmetic; for loss = 0 and gain > 0, rs = +inf and
100/(1+inf) = 0, so RSI = 100 exactly; for gain = loss = 0, rs = 0/0 =
NaN and the RSI cell is NaN.  A NaN operand propagates. -/
def rsiOfGainLoss : Option ℚ → Option ℚ → Option ℚ
  | some g, some l =>
      if 0 < l then some (100 - 100 / (1 + g / l))
      else if 0 < g then some 100
      else none
  | _, _ => none

/-- The RSI column of line 61. -/
def RSI_col (closes : List ℚ) (w : ℕ) : List (Option ℚ) :=
  List.zipWith rsiOfGainLoss (gain_col closes w) (loss_col closes w)

/-- The DataFrame returned by calculate_indicators: the original rows plus
the five added columns.  The source adds columns to the frame in place and
returns it; the raw OHLCV columns are the `bars` field, untouched. -/
structure AugDF where
  bars : List Bar
  Hist_Return_30D : List (Option ℚ)
  Avg_Volume : List (Option ℚ)
  SMA_Short : List (Option ℚ)
  SMA_Long : List (Option ℚ)
  RSI : List (Option ℚ)
deriving DecidableEq, Repr

/-- Embedding of calculate_indicators (lines 47-63). -/
def calculate_indicators (df : List Bar) (p : IndicatorParams) : AugDF :=
  let closes := df.map (·.Close)
  { bars := df
    Hist_Return_30D := Hist_Return_col closes p.hist_days
    Avg_Volume := rollingMean p.vol_period (df.map (·.Volume))
    SMA_Short := rollingMean p.sma_short closes
    SMA_Long := rollingMean p.sma_long closes
    RSI := RSI_col closes p.rsi_period }

/-- One row of the `results` list built at lines 136-146.  In the source
several fields are stored as formatted display strings; the numbers
behind the formatting are kept here (the formatting is rendering).
`Gain_30D` is the value used for sorting ('Gain 30D (%)'); it is the
last cell of Hist_Return_30D and may be NaN (`none`). -/
structure Result where
  Ticker : String
  Harga_Terakhir : ℚ
  Gain_30D : Option ℚ
  Open_Close_Ratio : ℚ
  Open_Hari_Ini : ℚ
  Close_Kemarin : ℚ
  Volume_Hari_Ini : ℚ
  Avg_Volume_20D : Option ℚ
  RSI : Option ℚ
deriving DecidableEq, Repr

/-- The IHSG status of lines 82-88: the "N/A" sentinel, or the latest
close together with the percent change shown by the formatted string. -/
inductive IhsgStatus where
  | na : IhsgStatus
  | avail : ℚ → ℚ → IhsgStatus
deriving DecidableEq, Repr

/-- The 4-tuple returned by screen_and_extract. -/
structure ScreenOutput where
  results : List Result
  chart_jsons : List (String × AugDF)
  ihsg_status : IhsgStatus
  ihsg_change : ℚ
deriving DecidableEq, Repr

/-- The shape universe of `full_data` as distinguished by lines 73-77:
either a MultiIndex frame whose level-1 labels are tickers (one column
group, i.e. one bar series, per distinct ticker — `unique()` guarantees
one pass per ticker), or a single-level frame, whose columns name is
`some t` when `columns.names == ['Ticker']` with first label t, else
`none`.  A single-level frame whose columns are ticker symbols rather
than OHLCV fields carries no bar data and is outside this typed
universe. -/
inductive FullData where
  | multi : List (String × List Bar) → FullData
  | flat : Option String → List Bar → FullData
deriving DecidableEq, Repr

/-- The `full_data.empty` test of line 75 (a single-level frame with no
rows; a MultiIndex frame is never tested for emptiness by the source). -/
def FullData.isEmptyDF : FullData → Bool
  | .multi _ => false
  | .flat _ df => df.isEmpty

/-- The row `yesterday` of line 108:
`stock_df.iloc[-2] if len(stock_df) > 1 else latest`. -/
def yesterdayBar (df : List Bar) : Option Bar :=
  match df.reverse with
  | [] => none
  | [x] => some x
  | _ :: y :: _ => some y

/-- The body of the per-ticker loop (lines 93-154) for one ticker: compute
indicators, read the latest and previous rows, evaluate the three hard
filters, and build the result row and chart data on a pass.  `none`
covers both the filter-fail path (lines 133, nothing emitted) and the
exception path of the `except` clause at line 152: on a well-typed frame
the only raising statement is `stock_df.iloc[-1]` on an empty frame,
which is the `df.getLast? = none` branch here. -/
def screenTicker (ticker : String) (df : List Bar) (crit : Criteria) (p : IndicatorParams) :
    Option (Result × AugDF) :=
  let aug := calculate_indicators df p
  match df.getLast?, yesterdayBar df with
  | some latest, some yesterday =>
      let current_close := latest.Close
      let yesterday_close := yesterday.Close
      let current_open := latest.Open
      let current_volume := latest.Volume
      let avg_volume := colAt aug.Avg_Volume (df.length - 1)
      let return_30d := colAt aug.Hist_Return_30D (df.length - 1)
      let open_ratio_ok := current_open > crit.open_ratio * yesterday_close
      let min_price_ok := current_close ≥ crit.min_price
      let min_volume_ok := current_volume > crit.min_volume_shares
      if open_ratio_ok ∧ min_price_ok ∧ min_volume_ok then
        some ({ Ticker := ticker
                Harga_Terakhir := current_close
                Gain_30D := return_30d
                Open_Close_Ratio := current_open / yesterday_close
                Open_Hari_Ini := current_open
                Close_Kemarin := yesterday_close
                Volume_Hari_Ini := current_volume
                Avg_Volume_20D := avg_volume
                RSI := colAt aug.RSI (df.length - 1) }, aug)
      else none
  | _, _ => none

/-- The `for ticker in tickers_to_process` loop: collects result rows and
chart entries in traversal order. -/
def screen_loop (items : List (String × List Bar)) (crit : Criteria) (p : IndicatorParams) :
    List Result × List (String × AugDF) :=
  match items with
  | [] => ([], [])
  | (t, df) :: rest =>
      let acc := screen_loop rest crit p
      match screenTicker t df crit p with
      | none => acc
      | some (r, aug) => (r :: acc.1, (t, aug) :: acc.2)

/-- The IHSG analysis of lines 82-88: status stays "N/A" with change 0
unless ihsg_data is present and non-empty; otherwise latest close,
previous close (latest itself when only one row exists), and percent
change. -/
def ihsg_analysis (ihsg_data : Option (List Bar)) : IhsgStatus × ℚ :=
  match ihsg_data with
  | none => (.na, 0)
  | some bars =>
      match bars.reverse with
      | [] => (.na, 0)
      | latest :: rest =>
          let prev := (rest.head?.getD latest).Close
          let change := (latest.Close / prev - 1) * 100
          (.avail latest.Close change, change)

/-- Embedding of screen_and_extract (lines 66-156). -/
def screen_and_extract (full : FullData) (ihsg_data : Option (List Bar))
    (crit : Criteria) (p : IndicatorParams) : ScreenOutput :=
  match full with
  | .multi cols =>
      let st := ihsg_analysis ihsg_data
      let acc := screen_loop (cols.filter fun x => x.1 ≠ IHSG_TICKER) crit p
      ⟨acc.1, acc.2, st.1, st.2⟩
  | .flat nm df =>
      if df.isEmpty then ⟨[], [], .na, 0⟩
      else
        let st := ihsg_analysis ihsg_data
        match nm with
        | some t =>
            if t ≠ IHSG_TICKER then
              let acc := screen_loop [(t, df)] crit p
              ⟨acc.1, acc.2, st.1, st.2⟩
            else ⟨[], [], st.1, st.2⟩
        | none => ⟨[], [], st.1, st.2⟩

/-- The user-facing message of line 489, raised when `results` is empty
after screening ("no stock passed the screening criteria you set"). -/
def noResultsMessage : String := "Tidak ada saham yang lolos kriteria screening yang Anda tentukan."

/-- The user-facing message of line 474, raised when the ticker list is
empty. -/
def emptyTickersMessage : String := "Harap masukkan minimal satu ticker saham (contoh: BBCA.JK) untuk di-screen."

/-- Row order on the sort key 'Gain 30D (%)' for the descending sort of
line 495: larger gains first, NaN rows last (pandas na_position default).
The source sorts with the pandas default kind='quicksort', whose tie
order is not specified; this model fixes a stable insertion sort, and no
theorem below relies on the order of tied rows. -/
def gainGE (a b : Result) : Bool :=
  match a.Gain_30D, b.Gain_30D with
  | some x, some y => decide (y ≤ x)
  | some _, none => true
  | none, some _ => false
  | none, none => true

/-- Insertion step of the model sort. -/
def insertDesc (a : Result) : List Result → List Result
  | [] => [a]
  | b :: rest => if gainGE b a then b :: insertDesc a rest else a :: b :: rest

/-- The sort of line 495 (sort_values by 'Gain 30D (%)', descending). -/
def sortRanked : List Result → List Result
  | [] => []
  | a :: rest => insertDesc a (sortRanked rest)

/-- Lines 494-495: `pd.to_numeric(..., errors='coerce')` is the identity
on this typed column (numbers stay numbers, NaN stays NaN), then the
descending sort, then `.dropna(subset=['Gain 30D (%)'])` removes the NaN
rows. -/
def rankResults (rs : List Result) : List Result :=
  (sortRanked rs).filter fun r => r.Gain_30D.isSome

/-- Embedding of the /analyze orchestration (lines 442-519) from the
point where the fetched data is in hand: validate the ticker list, run
screen_and_extract, raise (= `Except.error`, caught and rendered as the
error page) when nothing passed, otherwise sort and render.  Totality of
this function models "no exception escapes the orchestrator": every
ValueError is caught at line 521 and becomes an error page. -/
def analyze (tickers_list : List String) (full : FullData) (ihsg_data : Option (List Bar))
    (crit : Criteria) (p : IndicatorParams) :
    Except String (List Result × IhsgStatus × ℚ) :=
  if tickers_list.isEmpty then .error emptyTickersMessage
  else
    let out := screen_and_extract full ihsg_data crit p
    if out.results.isEmpty then .error noResultsMessage
    else .ok (rankResults out.results, out.ihsg_status, out.ihsg_change)

/-! Helper lemmas about the column combinators. -/

lemma colAt_range_map (f : ℕ → Option ℚ) {n i : ℕ} (h : i < n) :
    colAt ((List.range n).map f) i = f i := by
  simp [colAt, List.getElem?_map, List.getElem?_range, h]

lemma colAt_of_length_le (xs : List (Option ℚ)) {i : ℕ} (h : xs.length ≤ i) :
    colAt xs i = none := by
  simp [colAt, List.getElem?_eq_none h]

lemma length_rollingMean (w : ℕ) (xs : List ℚ) : (rollingMean w xs).length = xs.length := by
  simp [rollingMean]

lemma colAt_rollingMean (w : ℕ) (xs : List ℚ) {i : ℕ} (h : i < xs.length) :
    colAt (rollingMean w xs) i =
      if w ≤ i + 1 then some ((((xs.take (i + 1)).drop (i + 1 - w)).sum) / (w : ℚ)) else none := by
  unfold rollingMean
  exact colAt_range_map _ h

lemma rollingMean_spec (w : ℕ) (xs : List ℚ) :
    (xs.length < w → ∀ i, colAt (rollingMean w xs) i = none) ∧
    (∀ i, i < xs.length → w ≤ i + 1 →
      ((xs.take (i + 1)).drop (i + 1 - w)).length = w ∧
      colAt (rollingMean w xs) i =
        some ((((xs.take (i + 1)).drop (i + 1 - w)).sum) / (w : ℚ))) := by
  constructor
  · intro hlen i
    by_cases hi : i < xs.length
    · rw [colAt_rollingMean w xs hi]
      have hw : ¬ (w ≤ i + 1) := by omega
      simp [hw]
    · exact colAt_of_length_le _ (by rw [length_rollingMean]; omega)
  · intro i hi hw
    refine ⟨?_, ?_⟩
    · rw [List.length_drop, List.length_take]
      omega
    · rw [colAt_rollingMean w xs hi]
      simp [hw]

lemma getElem?_zipWith {α β γ : Type} (f : α → β → γ) (as : List α) (bs : List β)
    (i : ℕ) (a : α) (b : β) (ha : as[i]? = some a) (hb : bs[i]? = some b) :
    (List.zipWith f as bs)[i]? = some (f a b) := by
  induction as generalizing bs i with
  | nil => simp at ha
  | cons x as ih =>
    cases bs with
    | nil => simp at hb
    | cons y bs =>
      cases i with
      | zero =>
        simp at ha hb
        simp [ha, hb]
      | succ n =>
        simp at ha hb
        simpa using ih bs n ha hb

/-! Claim theorems. -/

/-- C2: calculate_indicators sets the trailing return at every index that has
at least hist_days prior bars to (close at that index divided by the close
hist_days bars earlier, minus 1, times 100) and leaves it undefined (NaN) at
all earlier indices. -/
theorem hist_return_spec (df : List Bar) (p : IndicatorParams) (i : ℕ) (hi : i < df.length) :
    colAt ((calculate_indicators df p).Hist_Return_30D) i =
      if p.hist_days ≤ i then
        some (((df.map (·.Close)).getD i 0 / (df.map (·.Close)).getD (i - p.hist_days) 0 - 1) * 100)
      else none := by
  have hlen : i < (df.map (·.Close)).length := by simpa using hi
  simpa [calculate_indicators, Hist_Return_col] using
    colAt_range_map
      (fun j => if p.hist_days ≤ j then
          some (((df.map (·.Close)).getD j 0 / (df.map (·.Close)).getD (j - p.hist_days) 0 - 1) * 100)
        else none) hlen

/-- C2 witness: Scenario A — 31 daily bars, first close 100, last close 110,
hist_days = 30: the latest trailing return is exactly 10 percent. -/
theorem hist_return_spec_witness :
    colAt ((calculate_indicators
      (List.replicate 30 (⟨100, 100, 100, 100, 0⟩ : Bar) ++ [⟨110, 110, 110, 110, 0⟩])
      ⟨20, 60, 14, 20, 30⟩).Hist_Return_30D) 30 = some 10 := by
  have h := hist_return_spec
    (List.replicate 30 (⟨100, 100, 100, 100, 0⟩ : Bar) ++ [⟨110, 110, 110, 110, 0⟩])
    ⟨20, 60, 14, 20, 30⟩ 30 (by simp)
  rw [h]
  norm_num [List.getD, List.getElem?_append_right, List.getElem?_replicate]
  rw [List.getElem_append_left (by simp)]
  norm_num [List.getElem_replicate]

/-- C6: for every series with fewer than sma_long bars the long moving average
is undefined at every index; at every index preceded by at least sma_long - 1
earlier bars it is the arithmetic mean of exactly the sma_long trailing closes
ending at that index, and the analogous statement holds for sma_short. -/
theorem sma_spec (df : List Bar) (p : IndicatorParams) :
    (df.length < p.sma_long → ∀ i, colAt ((calculate_indicators df p).SMA_Long) i = none) ∧
    (∀ i, i < df.length → p.sma_long ≤ i + 1 →
      (((df.map (·.Close)).take (i + 1)).drop (i + 1 - p.sma_long)).length = p.sma_long ∧
      colAt ((calculate_indicators df p).SMA_Long) i =
        some (((((df.map (·.Close)).take (i + 1)).drop (i + 1 - p.sma_long)).sum) / (p.sma_long : ℚ))) ∧
    (df.length < p.sma_short → ∀ i, colAt ((calculate_indicators df p).SMA_Short) i = none) ∧
    (∀ i, i < df.length → p.sma_short ≤ i + 1 →
      (((df.map (·.Close)).take (i + 1)).drop (i + 1 - p.sma_short)).length = p.sma_short ∧
      colAt ((calculate_indicators df p).SMA_Short) i =
        some (((((df.map (·.Close)).take (i + 1)).drop (i + 1 - p.sma_short)).sum) / (p.sma_short : ℚ))) := by
  have hlen : (df.map (·.Close)).length = df.length := by simp
  have hlong := rollingMean_spec p.sma_long (df.map (·.Close))
  have hshort := rollingMean_spec p.sma_short (df.map (·.Close))
  refine ⟨fun hl i => ?_, fun i hi hw => ?_, fun hl i => ?_, fun i hi hw => ?_⟩
  · simpa [calculate_indicators] using hlong.1 (by omega) i
  · simpa [calculate_indicators] using hlong.2 i (by omega) hw
  · simpa [calculate_indicators] using hshort.1 (by omega) i
  · simpa [calculate_indicators] using hshort.2 i (by omega) hw

/-- C6 witness: with closes 10, 20, 30 and sma_long = 2, the long moving
average at the last index is the mean of the two trailing closes, 25. -/
theorem sma_spec_witness :
    colAt ((calculate_indicators
      [(⟨1, 1, 1, 10, 0⟩ : Bar), ⟨1, 1, 1, 20, 0⟩, ⟨1, 1, 1, 30, 0⟩]
      ⟨1, 2, 2, 2, 2⟩).SMA_Long) 2 = some 25 := by
  have h := (sma_spec [(⟨1, 1, 1, 10, 0⟩ : Bar), ⟨1, 1, 1, 20, 0⟩, ⟨1, 1, 1, 30, 0⟩]
      ⟨1, 2, 2, 2, 2⟩).2.1 2 (by decide) (by decide)
  rw [h.2]
  norm_num

/-- C9: calculate_indicators is a pure, deterministic function of its series
and config: identical inputs give identical augmented series, the raw OHLCV
rows are unchanged in the result, and reapplying it to its own output yields
the same indicator values.  (Determinism and absence of side effects are
inherent in the functional embedding; the operative content is that the raw
rows pass through untouched and that recomputation agrees.) -/
theorem calculate_indicators_pure (df df2 : List Bar) (p : IndicatorParams) (h : df2 = df) :
    calculate_indicators df2 p = calculate_indicators df p ∧
    (calculate_indicators df p).bars = df ∧
    calculate_indicators ((calculate_indicators df p).bars) p = calculate_indicators df p := by
  subst h
  exact ⟨rfl, rfl, rfl⟩

/-- C9 witness: concrete instance of purity, row preservation and
idempotence. -/
theorem calculate_indicators_pure_witness :
    calculate_indicators [(⟨1, 2, 3, 4, 5⟩ : Bar)] ⟨2, 3, 2, 2, 1⟩ =
      calculate_indicators [(⟨1, 2, 3, 4, 5⟩ : Bar)] ⟨2, 3, 2, 2, 1⟩ ∧
    (calculate_indicators [(⟨1, 2, 3, 4, 5⟩ : Bar)] ⟨2, 3, 2, 2, 1⟩).bars = [⟨1, 2, 3, 4, 5⟩] ∧
    calculate_indicators ((calculate_indicators [(⟨1, 2, 3, 4, 5⟩ : Bar)] ⟨2, 3, 2, 2, 1⟩).bars)
        ⟨2, 3, 2, 2, 1⟩ =
      calculate_indicators [(⟨1, 2, 3, 4, 5⟩ : Bar)] ⟨2, 3, 2, 2, 1⟩ :=
  calculate_indicators_pure [⟨1, 2, 3, 4, 5⟩] [⟨1, 2, 3, 4, 5⟩] ⟨2, 3, 2, 2, 1⟩ rfl

/-- C10: in calculate_indicators, when over the trailing rsi_period deltas the
rolling average loss is zero while the rolling average gain is positive, the
RSI cell is exactly 100 (the float quotient saturates to +inf); when average
gain and average loss are both zero the quotient is 0/0 = NaN and the RSI
cell is undefined. -/
theorem rsi_saturation (df : List Bar) (p : IndicatorParams) (i : ℕ) (g : ℚ)
    (hg : colAt (gain_col (df.map (·.Close)) p.rsi_period) i = some g)
    (hl : colAt (loss_col (df.map (·.Close)) p.rsi_period) i = some 0) :
    (0 < g → colAt ((calculate_indicators df p).RSI) i = some 100) ∧
    (g = 0 → colAt ((calculate_indicators df p).RSI) i = none) := by
  have hga : (gain_col (df.map (·.Close)) p.rsi_period)[i]? = some (some g) := by
    rcases hx : (gain_col (df.map (·.Close)) p.rsi_period)[i]? with _ | o
    · rw [colAt, hx] at hg; simp at hg
    · rw [colAt, hx] at hg; simp at hg; rw [hg] at hx; exact hx
  have hla : (loss_col (df.map (·.Close)) p.rsi_period)[i]? = some (some 0) := by
    rcases hx : (loss_col (df.map (·.Close)) p.rsi_period)[i]? with _ | o
    · rw [colAt, hx] at hl; simp at hl
    · rw [colAt, hx] at hl; simp at hl; rw [hl] at hx; exact hx
  have hz : (RSI_col (df.map (·.Close)) p.rsi_period)[i]? =
      some (rsiOfGainLoss (some g) (some 0)) :=
    getElem?_zipWith rsiOfGainLoss _ _ i (some g) (some 0) hga hla
  have hcol : colAt ((calculate_indicators df p).RSI) i = rsiOfGainLoss (some g) (some 0) := by
    simp only [calculate_indicators]
    rw [colAt, hz]
    rfl
  constructor
  · intro hpos
    rw [hcol]
    simp [rsiOfGainLoss, hpos]
  · intro hzero
    rw [hcol]
    simp [rsiOfGainLoss, hzero]

/-- C10 witness: for strictly rising closes 1, 2, 3 with rsi_period = 2 the
RSI at the last index is exactly 100; for constant closes 5, 5, 5 it is
undefined. -/
theorem rsi_saturation_witness :
    colAt ((calculate_indicators [(⟨1, 1, 1, 1, 0⟩ : Bar), ⟨1, 1, 1, 2, 0⟩, ⟨1, 1, 1, 3, 0⟩]
      ⟨2, 2, 2, 2, 2⟩).RSI) 2 = some 100 ∧
    colAt ((calculate_indicators [(⟨1, 1, 1, 5, 0⟩ : Bar), ⟨1, 1, 1, 5, 0⟩, ⟨1, 1, 1, 5, 0⟩]
      ⟨2, 2, 2, 2, 2⟩).RSI) 2 = none := by
  constructor
  · exact (rsi_saturation [⟨1, 1, 1, 1, 0⟩, ⟨1, 1, 1, 2, 0⟩, ⟨1, 1, 1, 3, 0⟩]
      ⟨2, 2, 2, 2, 2⟩ 2 1
      (by norm_num [colAt, gain_col, rollingMean, diff_col, wherePos,
        List.range, List.range.loop, List.getD])
      (by norm_num [colAt, loss_col, rollingMean, diff_col, whereNegMag,
        List.range, List.range.loop, List.getD])).1 (by norm_num)
  · exact (rsi_saturation [⟨1, 1, 1, 5, 0⟩, ⟨1, 1, 1, 5, 0⟩, ⟨1, 1, 1, 5, 0⟩]
      ⟨2, 2, 2, 2, 2⟩ 2 0
      (by norm_num [colAt, gain_col, rollingMean, diff_col, wherePos,
        List.range, List.range.loop, List.getD])
      (by norm_num [colAt, loss_col, rollingMean, diff_col, whereNegMag,
        List.range, List.range.loop, List.getD])).2 rfl

lemma screenTicker_eq (t : String) (df : List Bar) (crit : Criteria) (p : IndicatorParams)
    (b y : Bar) (hb : df.getLast? = some b) (hy : yesterdayBar df = some y) :
    screenTicker t df crit p =
      if b.Open > crit.open_ratio * y.Close ∧ b.Close ≥ crit.min_price ∧
          b.Volume > crit.min_volume_shares then
        some ({ Ticker := t
                Harga_Terakhir := b.Close
                Gain_30D := colAt (calculate_indicators df p).Hist_Return_30D (df.length - 1)
                Open_Close_Ratio := b.Open / y.Close
                Open_Hari_Ini := b.Open
                Close_Kemarin := y.Close
                Volume_Hari_Ini := b.Volume
                Avg_Volume_20D := colAt (calculate_indicators df p).Avg_Volume (df.length - 1)
                RSI := colAt (calculate_indicators df p).RSI (df.length - 1) },
          calculate_indicators df p)
      else none := by
  unfold screenTicker
  rw [hb, hy]

lemma exists_getLast (df : List Bar) (h : df ≠ []) : ∃ b, df.getLast? = some b := by
  cases hb : df.getLast? with
  | none => exact absurd (List.getLast?_eq_none_iff.mp hb) h
  | some b => exact ⟨b, rfl⟩

lemma exists_yesterdayBar (df : List Bar) (h : df ≠ []) : ∃ y, yesterdayBar df = some y := by
  unfold yesterdayBar
  cases hr : df.reverse with
  | nil => exact absurd (List.reverse_eq_nil_iff.mp hr) h
  | cons z zs =>
      cases zs with
      | nil => exact ⟨z, rfl⟩
      | cons w ws => exact ⟨w, rfl⟩

lemma screenTicker_isSome (t : String) (df : List Bar) (crit : Criteria)
    (p : IndicatorParams) (b y : Bar) (hb : df.getLast? = some b)
    (hy : yesterdayBar df = some y) :
    (screenTicker t df crit p).isSome ↔
      (b.Open > crit.open_ratio * y.Close ∧ b.Close ≥ crit.min_price ∧
       b.Volume > crit.min_volume_shares) := by
  rw [screenTicker_eq t df crit p b y hb hy]
  by_cases hc : (b.Open > crit.open_ratio * y.Close ∧ b.Close ≥ crit.min_price ∧
      b.Volume > crit.min_volume_shares)
  · simp [hc]
  · simp [hc]

/-- C1: a ticker processed by screen_and_extract contributes a ScreeningResult
exactly when all three hard filters pass on its latest bar — latest open
strictly above open_ratio times the previous close, latest close at least
min_price, latest volume strictly above min_volume_shares. -/
theorem screening_filters_iff (t : String) (df : List Bar) (crit : Criteria)
    (p : IndicatorParams) (ihsg : Option (List Bar)) (b y : Bar)
    (hb : df.getLast? = some b) (hy : yesterdayBar df = some y) (ht : t ≠ IHSG_TICKER) :
    ((screen_and_extract (.multi [(t, df)]) ihsg crit p).results ≠ [] ↔
      (b.Open > crit.open_ratio * y.Close ∧ b.Close ≥ crit.min_price ∧
       b.Volume > crit.min_volume_shares)) := by
  have hiff := screenTicker_isSome t df crit p b y hb hy
  have hres : (screen_and_extract (FullData.multi [(t, df)]) ihsg crit p).results =
      ((screenTicker t df crit p).map Prod.fst).toList := by
    cases hs : screenTicker t df crit p <;>
      simp [screen_and_extract, screen_loop, hs, ht]
  rw [hres, ← hiff]
  cases hs : screenTicker t df crit p <;> simp [hs]

/-- C1 witness: Scenario B — today's open 101, yesterday's close 100,
open_ratio 1.015: the open-ratio filter fails (101 < 101.5) and the ticker is
excluded although the price and volume filters (close 60 ≥ 50, volume
10000000 > 5000000) would pass. -/
theorem screening_filters_iff_witness :
    (screen_and_extract
      (FullData.multi [(("BBCA.JK"), [(⟨0, 0, 0, 100, 0⟩ : Bar), ⟨101, 101, 101, 60, 10000000⟩])])
      none ⟨1015/1000, 50, 5000000⟩ ⟨20, 60, 14, 20, 30⟩).results = [] := by
  have h := screening_filters_iff ("BBCA.JK")
    [(⟨0, 0, 0, 100, 0⟩ : Bar), ⟨101, 101, 101, 60, 10000000⟩]
    ⟨1015/1000, 50, 5000000⟩ ⟨20, 60, 14, 20, 30⟩ none
    ⟨101, 101, 101, 60, 10000000⟩ ⟨0, 0, 0, 100, 0⟩ rfl rfl (by decide)
  by_contra hne
  have hc := h.mp hne
  have h1 := hc.1
  norm_num at h1

lemma screenTicker_nil (t : String) (crit : Criteria) (p : IndicatorParams) :
    screenTicker t [] crit p = none := rfl

lemma screen_loop_append_nilTicker (xs ys : List (String × List Bar)) (t : String)
    (crit : Criteria) (p : IndicatorParams) :
    screen_loop (xs ++ (t, ([] : List Bar)) :: ys) crit p = screen_loop (xs ++ ys) crit p := by
  induction xs with
  | nil => simp [screen_loop, screenTicker_nil]
  | cons hd tl ih =>
      obtain ⟨t', df'⟩ := hd
      show screen_loop ((t', df') :: (tl ++ (t, ([] : List Bar)) :: ys)) crit p =
        screen_loop ((t', df') :: (tl ++ ys)) crit p
      simp only [screen_loop, ih]

/-- C5: a ticker whose processing raises inside the per-ticker try block (on a
well-typed frame: the empty series, where `stock_df.iloc[-1]` raises) is
skipped alone — the whole output of screen_and_extract (results, chart map,
benchmark status and change) is exactly what it would be with that ticker
absent from the input. -/
theorem faulty_ticker_skipped (xs ys : List (String × List Bar)) (t : String) (df : List Bar)
    (ihsg : Option (List Bar)) (crit : Criteria) (p : IndicatorParams) (hdf : df = []) :
    screen_and_extract (.multi (xs ++ (t, df) :: ys)) ihsg crit p =
      screen_and_extract (.multi (xs ++ ys)) ihsg crit p := by
  subst hdf
  by_cases ht : t = IHSG_TICKER
  · simp [screen_and_extract, List.filter_append, List.filter_cons, ht]
  · have hsplit : ((xs ++ (t, ([] : List Bar)) :: ys).filter fun x => x.1 ≠ IHSG_TICKER)
        = (xs.filter fun x => x.1 ≠ IHSG_TICKER) ++
          (t, ([] : List Bar)) :: (ys.filter fun x => x.1 ≠ IHSG_TICKER) := by
      simp [List.filter_append, List.filter_cons, ht]
    simp only [screen_and_extract, hsplit, List.filter_append,
      screen_loop_append_nilTicker]

/-- C5 witness: dropping a concrete empty-series ticker from a concrete input
leaves the whole screen_and_extract output unchanged. -/
theorem faulty_ticker_skipped_witness :
    screen_and_extract
      (FullData.multi [(("AAAA.JK"), [(⟨1, 1, 1, 100, 9000000⟩ : Bar)]),
        (("BBBB.JK"), ([] : List Bar)), (("CCCC.JK"), [(⟨1, 1, 1, 70, 8000000⟩ : Bar)])])
      none ⟨1015/1000, 50, 5000000⟩ ⟨20, 60, 14, 20, 30⟩ =
    screen_and_extract
      (FullData.multi [(("AAAA.JK"), [(⟨1, 1, 1, 100, 9000000⟩ : Bar)]),
        (("CCCC.JK"), [(⟨1, 1, 1, 70, 8000000⟩ : Bar)])])
      none ⟨1015/1000, 50, 5000000⟩ ⟨20, 60, 14, 20, 30⟩ :=
  faulty_ticker_skipped [(("AAAA.JK"), [⟨1, 1, 1, 100, 9000000⟩])]
    [(("CCCC.JK"), [⟨1, 1, 1, 70, 8000000⟩])] ("BBBB.JK") [] none
    ⟨1015/1000, 50, 5000000⟩ ⟨20, 60, 14, 20, 30⟩ rfl

lemma screenTicker_min_price_mono (t : String) (df : List Bar) (crit : Criteria)
    (p : IndicatorParams) (p1 p2 : ℚ) (h : p1 ≤ p2) (x : Result × AugDF)
    (hx : screenTicker t df { crit with min_price := p2 } p = some x) :
    screenTicker t df { crit with min_price := p1 } p = some x := by
  by_cases hdf : df = []
  · subst hdf
    rw [screenTicker_nil] at hx
    exact absurd hx (by simp)
  · obtain ⟨b, hb⟩ := exists_getLast df hdf
    obtain ⟨y, hy⟩ := exists_yesterdayBar df hdf
    rw [screenTicker_eq t df _ p b y hb hy] at hx
    rw [screenTicker_eq t df _ p b y hb hy]
    split_ifs at hx with hc
    obtain ⟨h1, h2, h3⟩ := hc
    have h2' : b.Close ≥ p1 := le_trans h h2
    rw [if_pos ⟨h1, h2', h3⟩]
    exact hx

lemma screen_loop_min_price_mono (items : List (String × List Bar)) (crit : Criteria)
    (p : IndicatorParams) (p1 p2 : ℚ) (h : p1 ≤ p2) :
    List.Sublist (screen_loop items { crit with min_price := p2 } p).1
      (screen_loop items { crit with min_price := p1 } p).1 := by
  induction items with
  | nil => simp [screen_loop]
  | cons hd tl ih =>
      obtain ⟨t, df⟩ := hd
      simp only [screen_loop]
      cases h2 : screenTicker t df { crit with min_price := p2 } p with
      | none =>
          cases h1 : screenTicker t df { crit with min_price := p1 } p with
          | none => exact ih
          | some x => exact ih.cons x.1
      | some x =>
          rw [screenTicker_min_price_mono t df crit p p1 p2 h x h2]
          exact ih.cons₂ x.1

/-- C7: screening is monotonic in min_price — with everything else equal,
the result list under a higher min_price is a sublist (hence of no greater
length) of the result list under a lower min_price, so raising min_price
never adds a passer and never grows the result set. -/
theorem min_price_monotone (cols : List (String × List Bar)) (ihsg : Option (List Bar))
    (crit : Criteria) (p : IndicatorParams) (p1 p2 : ℚ) (h : p1 ≤ p2) :
    List.Sublist (screen_and_extract (.multi cols) ihsg { crit with min_price := p2 } p).results
      ((screen_and_extract (.multi cols) ihsg { crit with min_price := p1 } p).results) ∧
    (screen_and_extract (.multi cols) ihsg { crit with min_price := p2 } p).results.length ≤
      (screen_and_extract (.multi cols) ihsg { crit with min_price := p1 } p).results.length := by
  have hs : List.Sublist
      (screen_and_extract (.multi cols) ihsg { crit with min_price := p2 } p).results
      ((screen_and_extract (.multi cols) ihsg { crit with min_price := p1 } p).results) := by
    simpa [screen_and_extract] using
      screen_loop_min_price_mono (cols.filter fun x => x.1 ≠ IHSG_TICKER) crit p p1 p2 h
  exact ⟨hs, hs.length_le⟩

/-- C7 witness: raising min_price from 50 to 80 on a concrete two-ticker
input keeps the surviving results a sublist of the lower-threshold results
and does not increase their number. -/
theorem min_price_monotone_witness :
    List.Sublist (screen_and_extract
        (FullData.multi [(("AAAA.JK"), [(⟨1, 1, 1, 100, 9000000⟩ : Bar)]),
          (("CCCC.JK"), [(⟨1, 1, 1, 70, 8000000⟩ : Bar)])])
        none { open_ratio := 0, min_price := 80, min_volume_shares := 5000000 }
        ⟨20, 60, 14, 20, 30⟩).results
      ((screen_and_extract
        (FullData.multi [(("AAAA.JK"), [(⟨1, 1, 1, 100, 9000000⟩ : Bar)]),
          (("CCCC.JK"), [(⟨1, 1, 1, 70, 8000000⟩ : Bar)])])
        none { open_ratio := 0, min_price := 50, min_volume_shares := 5000000 }
        ⟨20, 60, 14, 20, 30⟩).results) ∧
    (screen_and_extract
        (FullData.multi [(("AAAA.JK"), [(⟨1, 1, 1, 100, 9000000⟩ : Bar)]),
          (("CCCC.JK"), [(⟨1, 1, 1, 70, 8000000⟩ : Bar)])])
        none { open_ratio := 0, min_price := 80, min_volume_shares := 5000000 }
        ⟨20, 60, 14, 20, 30⟩).results.length ≤
      (screen_and_extract
        (FullData.multi [(("AAAA.JK"), [(⟨1, 1, 1, 100, 9000000⟩ : Bar)]),
          (("CCCC.JK"), [(⟨1, 1, 1, 70, 8000000⟩ : Bar)])])
        none { open_ratio := 0, min_price := 50, min_volume_shares := 5000000 }
        ⟨20, 60, 14, 20, 30⟩).results.length :=
  min_price_monotone
    [(("AAAA.JK"), [⟨1, 1, 1, 100, 9000000⟩]), (("CCCC.JK"), [⟨1, 1, 1, 70, 8000000⟩])]
    none { open_ratio := 0, min_price := 0, min_volume_shares := 5000000 }
    ⟨20, 60, 14, 20, 30⟩ 50 80 (by norm_num)

lemma screen_ihsg_proj (full : FullData) (ihsg : Option (List Bar)) (crit : Criteria)
    (p : IndicatorParams) (h : full.isEmptyDF = false) :
    (screen_and_extract full ihsg crit p).ihsg_status = (ihsg_analysis ihsg).1 ∧
    (screen_and_extract full ihsg crit p).ihsg_change = (ihsg_analysis ihsg).2 := by
  cases full with
  | multi cols => constructor <;> simp [screen_and_extract]
  | flat nm df =>
      simp only [FullData.isEmptyDF] at h
      cases nm with
      | none => constructor <;> simp [screen_and_extract, h]
      | some t =>
          by_cases ht : t = IHSG_TICKER <;> constructor <;> simp [screen_and_extract, h, ht]

lemma screen_indep_ihsg (full : FullData) (i1 i2 : Option (List Bar)) (crit : Criteria)
    (p : IndicatorParams) :
    (screen_and_extract full i1 crit p).results = (screen_and_extract full i2 crit p).results ∧
    (screen_and_extract full i1 crit p).chart_jsons =
      (screen_and_extract full i2 crit p).chart_jsons := by
  cases full with
  | multi cols => constructor <;> simp [screen_and_extract]
  | flat nm df =>
      by_cases hdf : df.isEmpty
      · constructor <;> simp [screen_and_extract, hdf]
      · cases nm with
        | none => constructor <;> simp [screen_and_extract, hdf]
        | some t =>
            by_cases ht : t = IHSG_TICKER <;> constructor <;>
              simp [screen_and_extract, hdf, ht]

lemma ihsg_analysis_nonempty (bars : List Bar) (latest : Bar) (rest : List Bar)
    (h : bars.reverse = latest :: rest) :
    ihsg_analysis (some bars) =
      (.avail latest.Close ((latest.Close / (rest.head?.getD latest).Close - 1) * 100),
        (latest.Close / (rest.head?.getD latest).Close - 1) * 100) := by
  have hb : bars = (latest :: rest).reverse := by rw [← h, List.reverse_reverse]
  subst hb
  simp [ihsg_analysis, List.reverse_reverse]

/-- C8: when the stock table is present (not the empty single-level frame that
triggers the early return), a benchmark series with at least one bar yields
the status with the latest close and the percent change versus the prior
close — 0 percent when only one (positive-close) bar exists; an empty or
missing benchmark series yields the "N/A" sentinel with change 0; and the
results and chart map do not depend on the benchmark series at all. -/
theorem benchmark_status_spec (full : FullData) (ihsg : Option (List Bar))
    (crit : Criteria) (p : IndicatorParams) (hfull : full.isEmptyDF = false) :
    (∀ bars latest rest, ihsg = some bars → bars.reverse = latest :: rest →
      (screen_and_extract full ihsg crit p).ihsg_status =
        IhsgStatus.avail latest.Close
          ((latest.Close / (rest.head?.getD latest).Close - 1) * 100) ∧
      (screen_and_extract full ihsg crit p).ihsg_change =
        (latest.Close / (rest.head?.getD latest).Close - 1) * 100 ∧
      (rest = [] → 0 < latest.Close →
        (screen_and_extract full ihsg crit p).ihsg_change = 0)) ∧
    ((ihsg = none ∨ ihsg = some []) →
      (screen_and_extract full ihsg crit p).ihsg_status = IhsgStatus.na ∧
      (screen_and_extract full ihsg crit p).ihsg_change = 0) ∧
    (∀ other, (screen_and_extract full other crit p).results =
        (screen_and_extract full ihsg crit p).results ∧
      (screen_and_extract full other crit p).chart_jsons =
        (screen_and_extract full ihsg crit p).chart_jsons) := by
  obtain ⟨hst, hch⟩ := screen_ihsg_proj full ihsg crit p hfull
  refine ⟨?_, ?_, fun other => screen_indep_ihsg full other ihsg crit p⟩
  · intro bars latest rest hbars hrev
    subst hbars
    have hia := ihsg_analysis_nonempty bars latest rest hrev
    rw [hst, hch, hia]
    refine ⟨rfl, rfl, ?_⟩
    intro hrest hpos
    subst hrest
    simp [div_self (ne_of_gt hpos)]
  · rintro (hnone | hnil)
    · subst hnone
      rw [hst, hch]
      exact ⟨rfl, rfl⟩
    · subst hnil
      rw [hst, hch]
      exact ⟨rfl, rfl⟩

/-- C8 witness: a two-bar benchmark series with closes 100 then 110 yields the
available status with latest close 110 and change (110/100 - 1) * 100. -/
theorem benchmark_status_spec_witness :
    (screen_and_extract (FullData.multi [])
      (some [(⟨1, 1, 1, 100, 0⟩ : Bar), ⟨1, 1, 1, 110, 0⟩])
      ⟨1015/1000, 50, 5000000⟩ ⟨20, 60, 14, 20, 30⟩).ihsg_status =
      IhsgStatus.avail 110 ((110 / 100 - 1) * 100) := by
  have h := ((benchmark_status_spec (FullData.multi [])
      (some [(⟨1, 1, 1, 100, 0⟩ : Bar), ⟨1, 1, 1, 110, 0⟩]) ⟨1015/1000, 50, 5000000⟩
      ⟨20, 60, 14, 20, 30⟩ rfl).1 [(⟨1, 1, 1, 100, 0⟩ : Bar), ⟨1, 1, 1, 110, 0⟩]
      ⟨1, 1, 1, 110, 0⟩ [⟨1, 1, 1, 100, 0⟩] rfl (by simp)).1
  simpa using h

/-- C4 counterexample: the run on a wholly empty fetch response fails with
exactly the same user-facing message as a run in which data was fetched but
zero tickers passed the filters — the NoResults ValueError of line 489 — so
there is no DataUnavailable message distinct from the NoResults message. -/
theorem empty_fetch_message_not_distinct :
    analyze [("BBCA.JK")] (.flat none []) none ⟨1015/1000, 50, 5000000⟩
      ⟨20, 60, 14, 20, 30⟩ = Except.error noResultsMessage ∧
    analyze [("BBCA.JK")] (.multi [(("BBCA.JK"), [(⟨1, 1, 1, 100, 1⟩ : Bar)])]) none
      ⟨1015/1000, 50, 5000000⟩ ⟨20, 60, 14, 20, 30⟩ = Except.error noResultsMessage := by
  constructor
  · rfl
  · have hs : screenTicker ("BBCA.JK") [(⟨1, 1, 1, 100, 1⟩ : Bar)]
        ⟨1015/1000, 50, 5000000⟩ ⟨20, 60, 14, 20, 30⟩ = none := by
      rw [screenTicker_eq ("BBCA.JK") [(⟨1, 1, 1, 100, 1⟩ : Bar)]
        ⟨1015/1000, 50, 5000000⟩ ⟨20, 60, 14, 20, 30⟩ ⟨1, 1, 1, 100, 1⟩ ⟨1, 1, 1, 100, 1⟩
        rfl rfl]
      rw [if_neg]
      intro hc
      have h1 := hc.1
      norm_num at h1
    simp [analyze, screen_and_extract, screen_loop, hs]

/-- C4 (amended): when the fetch returns a wholly empty response for all
requested tickers, the run fails with the NoResults user-facing message (the
code raises the same ValueError as when zero tickers pass the filters; it
does not produce a distinct DataUnavailable message), the ranked results are
empty (an error page carries no results), and no exception escapes the
orchestrator (the handler renders the message). -/
theorem empty_fetch_noresults (tickers : List String) (ihsg : Option (List Bar))
    (crit : Criteria) (p : IndicatorParams) (h : tickers ≠ []) :
    analyze tickers (.flat none []) ihsg crit p = Except.error noResultsMessage := by
  have hne : tickers.isEmpty = false := by
    cases tickers with
    | nil => exact absurd rfl h
    | cons a l => rfl
  simp [analyze, hne, screen_and_extract]

/-- C4 witness: a concrete run with a nonempty ticker list and a wholly empty
fetch response fails with the NoResults message. -/
theorem empty_fetch_noresults_witness :
    analyze [("TLKM.JK")] (.flat none []) (some []) ⟨1015/1000, 50, 5000000⟩
      ⟨20, 60, 14, 20, 30⟩ = Except.error noResultsMessage :=
  empty_fetch_noresults [("TLKM.JK")] (some []) ⟨1015/1000, 50, 5000000⟩
    ⟨20, 60, 14, 20, 30⟩ (by simp)

end StockScreener
